import Mathlib

/-!
Shallow embedding of the inventory application in `src/app.py`
(Distribuidora Universal del Llano).

The application keeps three tables in a spreadsheet: `Productos`
(columns ID_Producto, Nombre, Categoría, Presentación, Stock), `Ventas`
and `Compras` (columns Fecha, ID_Producto, Nombre, Cantidad,
Presentación).  Each UI form handler loads the tables as dataframes,
validates the request, and writes whole tables back.  We model a loaded
table as a list of rows, a spreadsheet cell as a `Cell` (a number, a
string, or an empty cell read back as NaN), and each handler as a pure
function from the loaded tables and the form inputs to the tables as
they stand persisted when the handler finishes, together with the error
it reported, if any.
-/

namespace Inventario

/-- A spreadsheet cell as the dataframe sees it: a number, a string, or
an empty cell (pandas NaN). -/
inductive Cell where
  | num (n : Int)
  | str (s : String)
  | blank
deriving DecidableEq, Repr

/-- Parse a decimal integer literal with an optional sign, as Python
`int(...)` and `pd.to_numeric` accept for integer-valued strings:
the string must be a nonempty digit run, optionally signed; anything
else fails. -/
def parseInt? (s : String) : Option Int :=
  let core : List Char → Option Nat := fun ds =>
    if ds.isEmpty then none
    else if ds.all Char.isDigit then
      some (ds.foldl (fun n c => 10 * n + (c.toNat - 48)) 0)
    else none
  match s.toList with
  | '-' :: rest => (core rest).map (fun n => -(n : Int))
  | '+' :: rest => (core rest).map (fun n => (n : Int))
  | ds => (core ds).map (fun n => (n : Int))

/-- Python `int(cell)` on a value read from the dataframe
(line 168 and line 231 of `src/app.py`): an integer passes through, an
integer-valued string is parsed, and anything else (a non-numeric
string, or NaN from an empty cell) raises, modelled as `none`. -/
def cellToInt : Cell → Option Int
  | Cell.num n => some n
  | Cell.str s => parseInt? s
  | Cell.blank => none

/-- `pd.to_numeric(cell)` without `errors='coerce'` (line 263 of
`src/app.py`): a number stays a number, NaN stays NaN
(`Except.ok none`), a numeric string is parsed, and a non-numeric
string raises a ValueError (`Except.error ()`). -/
def toNumericStrict : Cell → Except Unit (Option Int)
  | Cell.num n => Except.ok (some n)
  | Cell.blank => Except.ok none
  | Cell.str s =>
    match parseInt? s with
    | some n => Except.ok (some n)
    | none => Except.error ()

/-- `pd.to_numeric(cell, errors='coerce')` (lines 330 and 348 of
`src/app.py`): as `toNumericStrict` but a non-numeric string becomes
NaN (`none`) instead of raising. -/
def toNumericCoerce : Cell → Option Int
  | Cell.num n => some n
  | Cell.blank => none
  | Cell.str s => parseInt? s

/-- A row of the `Productos` table. -/
structure Producto where
  idProducto : String
  nombre : String
  categoria : String
  presentacion : String
  stock : Cell
deriving DecidableEq, Repr

/-- A row of the `Ventas` or `Compras` table. -/
structure Movimiento where
  fecha : String
  idProducto : String
  nombre : String
  cantidad : Cell
  presentacion : String
deriving DecidableEq, Repr

/-- Errors the product registration form reports
(lines 121 to 125 of `src/app.py`). -/
inductive RegistroError where
  | missingField
  | duplicateId
deriving DecidableEq, Repr

/-- Outcome of the product registration form: either the updated
`Productos` table passed to `set_with_dataframe`, or the reported
error, in which case nothing is written. -/
inductive RegistroResult where
  | ok (productos : List Producto)
  | error (e : RegistroError)
deriving DecidableEq, Repr

/-- The `form_nuevo_producto` submit handler
(lines 121 to 136 of `src/app.py`).  If any of the four text fields is
empty it warns that all fields are required; else if the submitted id
already occurs in the `ID_Producto` column (string compared) it reports
a duplicate id; else it appends the new row to the table and persists
it.  `stockInicial` comes from a number input with minimum value 0. -/
def registerProduct (productos : List Producto)
    (idProducto nombre categoria presentacion : String)
    (stockInicial : Int) : RegistroResult :=
  if idProducto = "" ∨ nombre = "" ∨ categoria = "" ∨ presentacion = "" then
    RegistroResult.error RegistroError.missingField
  else if productos.any (fun p => p.idProducto = idProducto) then
    RegistroResult.error RegistroError.duplicateId
  else
    RegistroResult.ok
      (productos ++ [⟨idProducto, nombre, categoria, presentacion,
        Cell.num stockInicial⟩])

/-- Errors that can stop a sale or purchase handler. -/
inductive MovError where
  | productNotFound
  | stockParseError
  | insufficientStock
deriving DecidableEq, Repr

/-- The state persisted when a sale or purchase handler finishes:
the `Productos` table, the movement log it touched, and the error it
raised or reported, if any. -/
structure MovResult where
  productos : List Producto
  log : List Movimiento
  error : Option MovError
deriving DecidableEq, Repr

/-- The `submit_venta` handler (lines 155 and 167 to 184 of
`src/app.py`).  The selected product resolves to the first row of
`Productos` whose `Nombre` equals the selection (`iloc[0]`; an
IndexError if there is none).  The current stock of that row is
converted with `int(...)` before anything is written; if the requested
quantity exceeds it the sale is rejected and nothing is written.
Otherwise the new sale row is appended to `Ventas` and persisted, then
`df.loc[df["Nombre"] == seleccion, "Stock"] = nuevo_stock` overwrites
the stock of every row whose `Nombre` matches, and the `Productos`
table is persisted.  `cantidadVendida` comes from a number input with
minimum value 1. -/
def submitVenta (productos : List Producto) (ventas : List Movimiento)
    (productoSeleccionado : String) (cantidadVendida : Int)
    (fecha : String) : MovResult :=
  match productos.find? (fun p => p.nombre = productoSeleccionado) with
  | none => ⟨productos, ventas, some MovError.productNotFound⟩
  | some info =>
    match cellToInt info.stock with
    | none => ⟨productos, ventas, some MovError.stockParseError⟩
    | some stockActual =>
      if stockActual < cantidadVendida then
        ⟨productos, ventas, some MovError.insufficientStock⟩
      else
        let nuevaVenta : Movimiento :=
          ⟨fecha, info.idProducto, info.nombre, Cell.num cantidadVendida,
            info.presentacion⟩
        let nuevoStock := stockActual - cantidadVendida
        ⟨productos.map (fun p =>
            if p.nombre = productoSeleccionado then
              { p with stock := Cell.num nuevoStock }
            else p),
          ventas ++ [nuevaVenta], none⟩

/-- The `submit_compra` handler (lines 208 and 220 to 234 of
`src/app.py`).  The selected product resolves to the first row whose
`Nombre` matches.  The new purchase row is appended to `Compras` and
persisted FIRST (line 228); only then is the stock of the matched row
converted with `int(...)` (line 231), so a conversion failure leaves
the new purchase row already written while `Productos` is untouched.
On success every row whose `Nombre` matches gets the new stock, and
`Productos` is persisted.  `cantidadComprada` comes from a number input
with minimum value 1. -/
def submitCompra (productos : List Producto) (compras : List Movimiento)
    (productoSeleccionado : String) (cantidadComprada : Int)
    (fecha : String) : MovResult :=
  match productos.find? (fun p => p.nombre = productoSeleccionado) with
  | none => ⟨productos, compras, some MovError.productNotFound⟩
  | some info =>
    let nuevaCompra : Movimiento :=
      ⟨fecha, info.idProducto, info.nombre, Cell.num cantidadComprada,
        info.presentacion⟩
    let comprasFinal := compras ++ [nuevaCompra]
    match cellToInt info.stock with
    | none => ⟨productos, comprasFinal, some MovError.stockParseError⟩
    | some stockActual =>
      let nuevoStock := stockActual + cantidadComprada
      ⟨productos.map (fun p =>
          if p.nombre = productoSeleccionado then
            { p with stock := Cell.num nuevoStock }
          else p),
        comprasFinal, none⟩

/-- The dashboard KPI `total_stock` (line 263 of `src/app.py`):
`pd.to_numeric(df_productos["Stock"]).sum()`.  `pd.to_numeric` is
called WITHOUT `errors='coerce'`, so a non-numeric stock cell raises a
ValueError (modelled as `none`); otherwise the numeric values are
summed with NaN entries skipped, as `Series.sum()` does. -/
def totalStock (productos : List Producto) : Option Int :=
  match productos.mapM (fun p => toNumericStrict p.stock) with
  | Except.error _ => none
  | Except.ok vals => some ((vals.filterMap id).foldl (· + ·) 0)

/-- The summed quantity of the rows of a movement log whose `Nombre`
matches, after `pd.to_numeric(df['Cantidad'], errors='coerce')`
(lines 330 to 331 and 348 to 349 of `src/app.py`); NaN entries are
skipped by the sum. -/
def sumCantidad (log : List Movimiento) (nombre : String) : Int :=
  (((log.filter (fun m => m.nombre = nombre)).filterMap
      (fun m => toNumericCoerce m.cantidad)).foldl (· + ·) 0)

/-- Lexicographic comparison of character lists; the order pandas uses
when it sorts string group keys. -/
def lexLE : List Char → List Char → Bool
  | [], _ => true
  | _ :: _, [] => false
  | a :: as, b :: bs =>
    if a < b then true else if b < a then false else lexLE as bs

/-- Lexicographic order on strings, as a relation. -/
def strLE (a b : String) : Prop := lexLE a.toList b.toList = true

instance : DecidableRel strLE := fun a b =>
  inferInstanceAs (Decidable (lexLE a.toList b.toList = true))

/-- `df.groupby("Nombre")["Cantidad"].sum()` on a movement log: one
entry per distinct `Nombre`, keys sorted ascending as pandas groupby
does by default, each paired with its summed quantity.  A stable
insertion sort stands in for the sort pandas performs. -/
def groupSums (log : List Movimiento) : List (String × Int) :=
  (List.insertionSort strLE ((log.map (fun m => m.nombre)).dedup)).map
    (fun n => (n, sumCantidad log n))

/-- The descending order on grouped sums that `nlargest` uses: an entry
comes first when its summed quantity is at least that of the other. -/
def sumGE (a b : String × Int) : Prop := b.2 ≤ a.2

instance : DecidableRel sumGE := fun a b => inferInstanceAs (Decidable (b.2 ≤ a.2))

instance : IsTotal (String × Int) sumGE := ⟨fun a b => le_total b.2 a.2⟩

instance : IsTrans (String × Int) sumGE := ⟨fun _ _ _ hab hbc => le_trans hbc hab⟩

/-- `....nlargest(5)` applied to the grouped sums (lines 331 and 349 of
`src/app.py`): the five entries with the greatest sums, by a stable
descending sort on the summed quantity (ties keep the first
occurrences, as pandas keep='first' does). -/
def top5 (log : List Movimiento) : List (String × Int) :=
  (List.insertionSort sumGE (groupSums log)).take 5

/-- A `Productos` row holds a numeric stock that is not negative. -/
def stockNonnegB (p : Producto) : Bool :=
  match p.stock with
  | Cell.num n => decide (0 ≤ n)
  | _ => false

/-- Every row of the table holds a non-negative numeric stock. -/
def stockInv (productos : List Producto) : Prop :=
  ∀ p ∈ productos, stockNonnegB p = true

instance (productos : List Producto) : Decidable (stockInv productos) :=
  List.decidableBAll _ productos

/-- A sales log with six distinct product names, where product F has
the most rows (three) but the smallest summed quantity. -/
def demoVentas : List Movimiento :=
  [⟨"d", "1", "A", Cell.num 10, "u"⟩,
   ⟨"d", "2", "B", Cell.num 11, "u"⟩,
   ⟨"d", "3", "C", Cell.num 12, "u"⟩,
   ⟨"d", "4", "D", Cell.num 13, "u"⟩,
   ⟨"d", "5", "E", Cell.num 14, "u"⟩,
   ⟨"d", "6", "F", Cell.num 1, "u"⟩,
   ⟨"d", "6", "F", Cell.num 1, "u"⟩,
   ⟨"d", "6", "F", Cell.num 1, "u"⟩]

/-!
Helper lemmas shared by the claim theorems.
-/

/-- The stock overwrite `df.loc[df["Nombre"] == sel, "Stock"] = c`
preserves the first row found for `sel`: searching the updated table
finds the image of the row the search found before. -/
theorem find?_map_stock_update (productos : List Producto) (sel : String)
    (c : Cell) :
    (productos.map (fun p =>
        if p.nombre = sel then { p with stock := c } else p)).find?
        (fun p => p.nombre = sel)
      = (productos.find? (fun p => p.nombre = sel)).map
          (fun p => if p.nombre = sel then { p with stock := c } else p) := by
  have hpred : ((fun p : Producto => decide (p.nombre = sel)) ∘ fun p =>
      if p.nombre = sel then { p with stock := c } else p)
      = fun p : Producto => decide (p.nombre = sel) := by
    funext p
    by_cases h : p.nombre = sel <;> simp [Function.comp, h]
  rw [List.find?_map, hpred]

/-- A row passing `stockNonnegB` whose stock converts with `int(...)`
converts to a non-negative value. -/
theorem stockNonnegB_cellToInt {p : Producto} (h : stockNonnegB p = true)
    {s : Int} (hs : cellToInt p.stock = some s) : 0 ≤ s := by
  cases hc : p.stock with
  | num n =>
    rw [stockNonnegB, hc] at h
    rw [hc] at hs
    simp only [cellToInt, Option.some.injEq] at hs
    subst hs
    simpa using h
  | str t => rw [stockNonnegB, hc] at h; simp at h
  | blank => rw [stockNonnegB, hc] at h; simp at h

/-- Replacing the stock of a row by a non-negative number yields a row
passing `stockNonnegB`. -/
theorem stockNonnegB_update (p : Producto) {n : Int} (hn : 0 ≤ n) :
    stockNonnegB { p with stock := Cell.num n } = true := by
  rw [stockNonnegB]
  simpa using hn

/-!
Claim theorems.
-/

/-- C2: for a sale of quantity q on the matched product with current
stock s, if q is at most s, the handler reports no error, the matched
row of the returned products table carries stock s - q, and the sales
log is the old log with exactly the new movement row appended, prior
rows unchanged. -/
theorem c2_sale_success (productos : List Producto) (ventas : List Movimiento)
    (sel fecha : String) (q s : Int) (info : Producto)
    (hfind : productos.find? (fun p => p.nombre = sel) = some info)
    (hs : cellToInt info.stock = some s) (hq : q ≤ s) :
    (submitVenta productos ventas sel q fecha).error = none
    ∧ ((submitVenta productos ventas sel q fecha).productos.find?
        (fun p => p.nombre = sel)).map (fun p => p.stock)
        = some (Cell.num (s - q))
    ∧ (submitVenta productos ventas sel q fecha).log
        = ventas ++ [⟨fecha, info.idProducto, info.nombre, Cell.num q,
            info.presentacion⟩] := by
  have hmain : submitVenta productos ventas sel q fecha =
      ⟨productos.map (fun p =>
          if p.nombre = sel then { p with stock := Cell.num (s - q) } else p),
        ventas ++ [⟨fecha, info.idProducto, info.nombre, Cell.num q,
          info.presentacion⟩], none⟩ := by
    simp only [submitVenta, hfind, hs]
    rw [if_neg (not_lt.mpr hq)]
  refine ⟨by rw [hmain], ?_, by rw [hmain]⟩
  have hsel : info.nombre = sel := by simpa using List.find?_some hfind
  rw [hmain]
  simp only [find?_map_stock_update, hfind, Option.map_some]
  simp [hsel]

/-- Witness for C2 at the spec example: one product with stock 5 and a
sale of 3 units. -/
theorem c2_sale_success_witness :
    (([⟨"P1", "Widget", "c", "u", Cell.num 5⟩] : List Producto).find?
        (fun p => p.nombre = "Widget")
        = some ⟨"P1", "Widget", "c", "u", Cell.num 5⟩)
    ∧ cellToInt (Cell.num 5) = some 5
    ∧ (3 : Int) ≤ 5
    ∧ (submitVenta [⟨"P1", "Widget", "c", "u", Cell.num 5⟩] [] "Widget" 3 "d").error
        = none
    ∧ ((submitVenta [⟨"P1", "Widget", "c", "u", Cell.num 5⟩] [] "Widget" 3 "d").productos.find?
        (fun p => p.nombre = "Widget")).map (fun p => p.stock)
        = some (Cell.num (5 - 3))
    ∧ (submitVenta [⟨"P1", "Widget", "c", "u", Cell.num 5⟩] [] "Widget" 3 "d").log
        = [] ++ [⟨"d", "P1", "Widget", Cell.num 3, "u"⟩] :=
  ⟨by decide, by decide, by decide,
    c2_sale_success [⟨"P1", "Widget", "c", "u", Cell.num 5⟩] [] "Widget" "d" 3 5
      ⟨"P1", "Widget", "c", "u", Cell.num 5⟩ (by decide) (by decide) (by decide)⟩

/-- C3: a sale of quantity q on the matched product with current stock
s, with q greater than s, is rejected: the handler reports the
insufficient stock error, appends nothing to the sales log, and leaves
the products table exactly as it was. -/
theorem c3_sale_insufficient (productos : List Producto)
    (ventas : List Movimiento) (sel fecha : String) (q s : Int)
    (info : Producto)
    (hfind : productos.find? (fun p => p.nombre = sel) = some info)
    (hs : cellToInt info.stock = some s) (hgt : s < q) :
    submitVenta productos ventas sel q fecha =
      ⟨productos, ventas, some MovError.insufficientStock⟩ := by
  simp only [submitVenta, hfind, hs]
  rw [if_pos hgt]

/-- Witness for C3 at the spec example: one product with stock 2 and a
rejected sale of 10 units. -/
theorem c3_sale_insufficient_witness :
    (([⟨"P1", "Widget", "c", "u", Cell.num 2⟩] : List Producto).find?
        (fun p => p.nombre = "Widget")
        = some ⟨"P1", "Widget", "c", "u", Cell.num 2⟩)
    ∧ cellToInt (Cell.num 2) = some 2
    ∧ (2 : Int) < 10
    ∧ submitVenta [⟨"P1", "Widget", "c", "u", Cell.num 2⟩] [] "Widget" 10 "d"
        = ⟨[⟨"P1", "Widget", "c", "u", Cell.num 2⟩], [],
            some MovError.insufficientStock⟩ :=
  ⟨by decide, by decide, by decide,
    c3_sale_insufficient [⟨"P1", "Widget", "c", "u", Cell.num 2⟩] [] "Widget" "d"
      10 2 ⟨"P1", "Widget", "c", "u", Cell.num 2⟩ (by decide) (by decide)
      (by decide)⟩

/-- C4: a purchase of any positive quantity q on an existing matched
product whose stock converts to s always succeeds, with no upper bound:
the handler reports no error, the matched row of the returned products
table carries stock s + q, and the purchases log is the old log with
exactly the new movement row appended. -/
theorem c4_purchase_success (productos : List Producto)
    (compras : List Movimiento) (sel fecha : String) (q s : Int)
    (hq : 0 < q) (info : Producto)
    (hfind : productos.find? (fun p => p.nombre = sel) = some info)
    (hs : cellToInt info.stock = some s) :
    (submitCompra productos compras sel q fecha).error = none
    ∧ ((submitCompra productos compras sel q fecha).productos.find?
        (fun p => p.nombre = sel)).map (fun p => p.stock)
        = some (Cell.num (s + q))
    ∧ (submitCompra productos compras sel q fecha).log
        = compras ++ [⟨fecha, info.idProducto, info.nombre, Cell.num q,
            info.presentacion⟩] := by
  have hmain : submitCompra productos compras sel q fecha =
      ⟨productos.map (fun p =>
          if p.nombre = sel then { p with stock := Cell.num (s + q) } else p),
        compras ++ [⟨fecha, info.idProducto, info.nombre, Cell.num q,
          info.presentacion⟩], none⟩ := by
    simp only [submitCompra, hfind, hs]
  refine ⟨by rw [hmain], ?_, by rw [hmain]⟩
  have hsel : info.nombre = sel := by simpa using List.find?_some hfind
  rw [hmain]
  simp only [find?_map_stock_update, hfind, Option.map_some]
  simp [hsel]

/-- Witness for C4: one product with stock 5 and a purchase of 1000
units, far above the current stock. -/
theorem c4_purchase_success_witness :
    (0 : Int) < 1000
    ∧ (([⟨"P1", "Widget", "c", "u", Cell.num 5⟩] : List Producto).find?
        (fun p => p.nombre = "Widget")
        = some ⟨"P1", "Widget", "c", "u", Cell.num 5⟩)
    ∧ cellToInt (Cell.num 5) = some 5
    ∧ (submitCompra [⟨"P1", "Widget", "c", "u", Cell.num 5⟩] [] "Widget" 1000 "d").error
        = none
    ∧ ((submitCompra [⟨"P1", "Widget", "c", "u", Cell.num 5⟩] [] "Widget" 1000 "d").productos.find?
        (fun p => p.nombre = "Widget")).map (fun p => p.stock)
        = some (Cell.num (5 + 1000))
    ∧ (submitCompra [⟨"P1", "Widget", "c", "u", Cell.num 5⟩] [] "Widget" 1000 "d").log
        = [] ++ [⟨"d", "P1", "Widget", Cell.num 1000, "u"⟩] :=
  ⟨by decide, by decide, by decide,
    c4_purchase_success [⟨"P1", "Widget", "c", "u", Cell.num 5⟩] [] "Widget" "d"
      1000 5 (by decide) ⟨"P1", "Widget", "c", "u", Cell.num 5⟩ (by decide)
      (by decide)⟩

/-- C5 counterexample: with two rows sharing the name A (stocks 10 and
99), a sale of 3 succeeds but the returned table is NOT the claimed one
with only the first matching row changed; the write hits every row
whose name matches, so both rows end at stock 7. -/
theorem c5_counterexample :
    (submitVenta [⟨"P1", "A", "c", "u", Cell.num 10⟩,
        ⟨"P2", "A", "c", "u", Cell.num 99⟩] [] "A" 3 "d").error = none
    ∧ (submitVenta [⟨"P1", "A", "c", "u", Cell.num 10⟩,
        ⟨"P2", "A", "c", "u", Cell.num 99⟩] [] "A" 3 "d").productos
        ≠ [⟨"P1", "A", "c", "u", Cell.num 7⟩, ⟨"P2", "A", "c", "u", Cell.num 99⟩]
    ∧ (submitVenta [⟨"P1", "A", "c", "u", Cell.num 10⟩,
        ⟨"P2", "A", "c", "u", Cell.num 99⟩] [] "A" 3 "d").productos
        = [⟨"P1", "A", "c", "u", Cell.num 7⟩, ⟨"P2", "A", "c", "u", Cell.num 7⟩] := by
  decide

/-- C5 (amended): the lookup resolves the selected name to the first
matching row, whose stock supplies the value s used for the update; on
success the returned products table replaces the stock of EVERY row
whose name equals the selection by the new stock, and leaves every row
with a different name unchanged, for the sale and the purchase handler
alike. -/
theorem c5_stock_write_frame (productos : List Producto)
    (ventas compras : List Movimiento) (sel fecha : String) (q s : Int)
    (info : Producto)
    (hfind : productos.find? (fun p => p.nombre = sel) = some info)
    (hs : cellToInt info.stock = some s) :
    (q ≤ s →
      (submitVenta productos ventas sel q fecha).productos
        = productos.map (fun p =>
            if p.nombre = sel then { p with stock := Cell.num (s - q) } else p))
    ∧ (submitCompra productos compras sel q fecha).productos
      = productos.map (fun p =>
          if p.nombre = sel then { p with stock := Cell.num (s + q) } else p) := by
  constructor
  · intro hq
    simp only [submitVenta, hfind, hs]
    rw [if_neg (not_lt.mpr hq)]
  · simp only [submitCompra, hfind, hs]

/-- Witness for the amended C5 on a table with a duplicated name. -/
theorem c5_stock_write_frame_witness :
    (([⟨"P1", "A", "c", "u", Cell.num 10⟩, ⟨"P2", "A", "c", "u", Cell.num 99⟩] :
        List Producto).find? (fun p => p.nombre = "A")
        = some ⟨"P1", "A", "c", "u", Cell.num 10⟩)
    ∧ cellToInt (Cell.num 10) = some 10
    ∧ (3 : Int) ≤ 10
    ∧ (submitVenta [⟨"P1", "A", "c", "u", Cell.num 10⟩,
          ⟨"P2", "A", "c", "u", Cell.num 99⟩] [] "A" 3 "d").productos
        = ([⟨"P1", "A", "c", "u", Cell.num 10⟩,
            ⟨"P2", "A", "c", "u", Cell.num 99⟩] : List Producto).map (fun p =>
            if p.nombre = "A" then { p with stock := Cell.num (10 - 3) } else p)
    ∧ (submitCompra [⟨"P1", "A", "c", "u", Cell.num 10⟩,
          ⟨"P2", "A", "c", "u", Cell.num 99⟩] [] "A" 3 "d").productos
        = ([⟨"P1", "A", "c", "u", Cell.num 10⟩,
            ⟨"P2", "A", "c", "u", Cell.num 99⟩] : List Producto).map (fun p =>
            if p.nombre = "A" then { p with stock := Cell.num (10 + 3) } else p) :=
  ⟨by decide, by decide, by decide,
    (c5_stock_write_frame
      [⟨"P1", "A", "c", "u", Cell.num 10⟩, ⟨"P2", "A", "c", "u", Cell.num 99⟩]
      [] [] "A" "d" 3 10 ⟨"P1", "A", "c", "u", Cell.num 10⟩ (by decide)
      (by decide)).1 (by decide),
    (c5_stock_write_frame
      [⟨"P1", "A", "c", "u", Cell.num 10⟩, ⟨"P2", "A", "c", "u", Cell.num 99⟩]
      [] [] "A" "d" 3 10 ⟨"P1", "A", "c", "u", Cell.num 10⟩ (by decide)
      (by decide)).2⟩

/-- C10 counterexample: on a product whose stored stock is the
non-numeric string abc, a purchase of 2 fails with the conversion
error, yet the purchases log has already received (and persisted) the
new movement row, against the claim that both tables stay unchanged. -/
theorem c10_counterexample :
    (submitCompra [⟨"P1", "A", "c", "u", Cell.str "abc"⟩] [] "A" 2 "f").error
        = some MovError.stockParseError
    ∧ (submitCompra [⟨"P1", "A", "c", "u", Cell.str "abc"⟩] [] "A" 2 "f").log
        ≠ []
    ∧ (submitCompra [⟨"P1", "A", "c", "u", Cell.str "abc"⟩] [] "A" 2 "f").log
        = [⟨"f", "P1", "A", Cell.num 2, "u"⟩] := by
  decide

/-- C10 (amended): when the stock of the first matching row does not
convert with `int(...)`, the sale handler fails before any write and
leaves both tables unchanged, while the purchase handler has already
appended and persisted the new movement row before the conversion, so
it fails leaving the new purchases row written and the products table
unchanged. -/
theorem c10_parse_failure (productos : List Producto)
    (ventas compras : List Movimiento) (sel fecha : String) (q : Int)
    (info : Producto)
    (hfind : productos.find? (fun p => p.nombre = sel) = some info)
    (hbad : cellToInt info.stock = none) :
    submitVenta productos ventas sel q fecha
      = ⟨productos, ventas, some MovError.stockParseError⟩
    ∧ submitCompra productos compras sel q fecha
      = ⟨productos, compras ++ [⟨fecha, info.idProducto, info.nombre,
          Cell.num q, info.presentacion⟩], some MovError.stockParseError⟩ := by
  constructor
  · simp only [submitVenta, hfind, hbad]
  · simp only [submitCompra, hfind, hbad]

/-- Witness for the amended C10 on a stock cell holding abc. -/
theorem c10_parse_failure_witness :
    (([⟨"P1", "A", "c", "u", Cell.str "abc"⟩] : List Producto).find?
        (fun p => p.nombre = "A") = some ⟨"P1", "A", "c", "u", Cell.str "abc"⟩)
    ∧ cellToInt (Cell.str "abc") = none
    ∧ submitVenta [⟨"P1", "A", "c", "u", Cell.str "abc"⟩] [] "A" 2 "f"
        = ⟨[⟨"P1", "A", "c", "u", Cell.str "abc"⟩], [],
            some MovError.stockParseError⟩
    ∧ submitCompra [⟨"P1", "A", "c", "u", Cell.str "abc"⟩] [] "A" 2 "f"
        = ⟨[⟨"P1", "A", "c", "u", Cell.str "abc"⟩],
            [] ++ [⟨"f", "P1", "A", Cell.num 2, "u"⟩],
            some MovError.stockParseError⟩ :=
  ⟨by decide, by decide,
    c10_parse_failure [⟨"P1", "A", "c", "u", Cell.str "abc"⟩] [] [] "A" "f" 2
      ⟨"P1", "A", "c", "u", Cell.str "abc"⟩ (by decide) (by decide)⟩

/-- C6: the claim (and the spec example) says total_stock coerces a
non-numeric stock to 0 and yields 15 over stocks 5, abc, 10.  The code
at line 263 calls `pd.to_numeric` WITHOUT `errors='coerce'` (the
coercing call on line 266 runs only afterwards, for the low stock
table), so on that input the KPI computation raises a ValueError,
modelled as `none`, instead of producing 15. -/
theorem c6_total_stock_raises :
    totalStock [⟨"P1", "A", "c", "u", Cell.num 5⟩,
        ⟨"P2", "B", "c", "u", Cell.str "abc"⟩,
        ⟨"P3", "C", "c", "u", Cell.num 10⟩] = none
    ∧ totalStock [⟨"P1", "A", "c", "u", Cell.num 5⟩,
        ⟨"P2", "B", "c", "u", Cell.str "abc"⟩,
        ⟨"P3", "C", "c", "u", Cell.num 10⟩] ≠ some 15
    ∧ totalStock [⟨"P1", "A", "c", "u", Cell.num 5⟩,
        ⟨"P3", "C", "c", "u", Cell.num 10⟩] = some 15 := by
  decide

/-- C7 counterexample: the table holds id P1; registering with id P1
but an empty name does leave the table unchanged, yet the reported
error is the missing field warning, not the duplicate id error the
claim promises for every call whose id already exists. -/
theorem c7_counterexample :
    ("P1" ∈ ([⟨"P1", "A", "c", "u", Cell.num 5⟩] : List Producto).map
        (fun p => p.idProducto))
    ∧ registerProduct [⟨"P1", "A", "c", "u", Cell.num 5⟩] "P1" "" "c" "u" 0
        = RegistroResult.error RegistroError.missingField
    ∧ registerProduct [⟨"P1", "A", "c", "u", Cell.num 5⟩] "P1" "" "c" "u" 0
        ≠ RegistroResult.error RegistroError.duplicateId := by
  decide

/-- C7 (amended): a registration whose id already exists in the table
(string compared) and whose four text fields are all non-empty reports
the duplicate id error; since the handler returns an error, nothing is
written and the products table stays byte for byte unchanged.  When a
required field is empty the handler reports the missing field warning
first, still leaving the table unchanged. -/
theorem c7_duplicate_id (productos : List Producto)
    (idP nom cat pres : String) (s : Int)
    (hid : idP ≠ "") (hnom : nom ≠ "") (hcat : cat ≠ "") (hpres : pres ≠ "")
    (hdup : idP ∈ productos.map (fun p => p.idProducto)) :
    registerProduct productos idP nom cat pres s
      = RegistroResult.error RegistroError.duplicateId := by
  have hne : ¬ (idP = "" ∨ nom = "" ∨ cat = "" ∨ pres = "") := by
    simp [hid, hnom, hcat, hpres]
  have hany : productos.any (fun p => p.idProducto = idP) = true := by
    rcases List.mem_map.mp hdup with ⟨p, hp, hpe⟩
    exact List.any_eq_true.mpr ⟨p, hp, by simp [hpe]⟩
  simp only [registerProduct]
  rw [if_neg hne, if_pos hany]

/-- Witness for the amended C7. -/
theorem c7_duplicate_id_witness :
    ("P1" : String) ≠ ""
    ∧ ("B" : String) ≠ ""
    ∧ ("c" : String) ≠ ""
    ∧ ("u" : String) ≠ ""
    ∧ ("P1" ∈ ([⟨"P1", "A", "c", "u", Cell.num 5⟩] : List Producto).map
        (fun p => p.idProducto))
    ∧ registerProduct [⟨"P1", "A", "c", "u", Cell.num 5⟩] "P1" "B" "c" "u" 0
        = RegistroResult.error RegistroError.duplicateId :=
  ⟨by decide, by decide, by decide, by decide, by decide,
    c7_duplicate_id [⟨"P1", "A", "c", "u", Cell.num 5⟩] "P1" "B" "c" "u" 0
      (by decide) (by decide) (by decide) (by decide) (by decide)⟩

/-- C8: a registration with non-empty id, name, category and unit, a
non-negative initial stock, and a fresh id returns the table with
exactly the submitted row appended at the end; every pre-existing row
is carried over unaltered. -/
theorem c8_register_new (productos : List Producto)
    (idP nom cat pres : String) (s : Int)
    (hid : idP ≠ "") (hnom : nom ≠ "") (hcat : cat ≠ "") (hpres : pres ≠ "")
    (hs : 0 ≤ s)
    (hfresh : idP ∉ productos.map (fun p => p.idProducto)) :
    registerProduct productos idP nom cat pres s
      = RegistroResult.ok (productos ++ [⟨idP, nom, cat, pres, Cell.num s⟩]) := by
  have hne : ¬ (idP = "" ∨ nom = "" ∨ cat = "" ∨ pres = "") := by
    simp [hid, hnom, hcat, hpres]
  have hany : ¬ productos.any (fun p => p.idProducto = idP) = true := by
    intro h
    rcases List.any_eq_true.mp h with ⟨p, hp, hpe⟩
    exact hfresh (List.mem_map.mpr ⟨p, hp, by simpa using hpe⟩)
  simp only [registerProduct]
  rw [if_neg hne, if_neg hany]

/-- Witness for C8: adding a second product to a one-row table. -/
theorem c8_register_new_witness :
    ("P2" : String) ≠ ""
    ∧ ("B" : String) ≠ ""
    ∧ ("c" : String) ≠ ""
    ∧ ("u" : String) ≠ ""
    ∧ (0 : Int) ≤ 3
    ∧ ("P2" ∉ ([⟨"P1", "A", "c", "u", Cell.num 5⟩] : List Producto).map
        (fun p => p.idProducto))
    ∧ registerProduct [⟨"P1", "A", "c", "u", Cell.num 5⟩] "P2" "B" "c" "u" 3
        = RegistroResult.ok ([⟨"P1", "A", "c", "u", Cell.num 5⟩]
            ++ [⟨"P2", "B", "c", "u", Cell.num 3⟩]) :=
  ⟨by decide, by decide, by decide, by decide, by decide, by decide,
    c8_register_new [⟨"P1", "A", "c", "u", Cell.num 5⟩] "P2" "B" "c" "u" 3
      (by decide) (by decide) (by decide) (by decide) (by decide) (by decide)⟩

/-- C1: from any products table whose rows all carry a non-negative
numeric stock, every operation that succeeds (product registration with
a non-negative initial stock, sale, purchase with positive quantity)
returns a products table whose rows all still carry a non-negative
numeric stock; and a sale whose quantity exceeds the converted stock of
the matched row is rejected. -/
theorem c1_stock_invariant (productos : List Producto)
    (hinv : stockInv productos) :
    (∀ (idP nom cat pres : String) (s : Int) (res : List Producto), 0 ≤ s →
        registerProduct productos idP nom cat pres s = RegistroResult.ok res →
        stockInv res)
    ∧ (∀ (ventas : List Movimiento) (sel fecha : String) (q : Int),
        (submitVenta productos ventas sel q fecha).error = none →
        stockInv (submitVenta productos ventas sel q fecha).productos)
    ∧ (∀ (compras : List Movimiento) (sel fecha : String) (q : Int), 1 ≤ q →
        (submitCompra productos compras sel q fecha).error = none →
        stockInv (submitCompra productos compras sel q fecha).productos)
    ∧ (∀ (ventas : List Movimiento) (sel fecha : String) (q s : Int)
        (info : Producto),
        productos.find? (fun p => p.nombre = sel) = some info →
        cellToInt info.stock = some s → s < q →
        (submitVenta productos ventas sel q fecha).error
          = some MovError.insufficientStock) := by
  refine ⟨?_, ?_, ?_, ?_⟩
  · intro idP nom cat pres s res hs hok
    simp only [registerProduct] at hok
    by_cases h1 : idP = "" ∨ nom = "" ∨ cat = "" ∨ pres = ""
    · rw [if_pos h1] at hok; cases hok
    · rw [if_neg h1] at hok
      by_cases h2 : productos.any (fun p => p.idProducto = idP) = true
      · rw [if_pos h2] at hok; cases hok
      · rw [if_neg h2] at hok
        obtain rfl : productos ++ [⟨idP, nom, cat, pres, Cell.num s⟩] = res :=
          by cases hok; rfl
        intro p hp
        rcases List.mem_append.mp hp with h | h
        · exact hinv p h
        · obtain rfl : p = ⟨idP, nom, cat, pres, Cell.num s⟩ :=
            List.mem_singleton.mp h
          rw [stockNonnegB]
          simpa using hs
  · intro ventas sel fecha q herr
    cases hf : productos.find? (fun p => p.nombre = sel) with
    | none => simp [submitVenta, hf] at herr
    | some info =>
      cases hs : cellToInt info.stock with
      | none => simp [submitVenta, hf, hs] at herr
      | some s =>
        by_cases hlt : s < q
        · simp [submitVenta, hf, hs, hlt] at herr
        · simp only [submitVenta, hf, hs]
          rw [if_neg hlt]
          intro p hp
          rcases List.mem_map.mp hp with ⟨p0, hp0, rfl⟩
          by_cases hsel : p0.nombre = sel
          · rw [if_pos hsel]
            exact stockNonnegB_update p0 (sub_nonneg.mpr (not_lt.mp hlt))
          · rw [if_neg hsel]
            exact hinv p0 hp0
  · intro compras sel fecha q hq herr
    cases hf : productos.find? (fun p => p.nombre = sel) with
    | none => simp [submitCompra, hf] at herr
    | some info =>
      cases hs : cellToInt info.stock with
      | none => simp [submitCompra, hf, hs] at herr
      | some s =>
        have hs0 : 0 ≤ s :=
          stockNonnegB_cellToInt (hinv info (List.mem_of_find?_eq_some hf)) hs
        simp only [submitCompra, hf, hs]
        intro p hp
        rcases List.mem_map.mp hp with ⟨p0, hp0, rfl⟩
        by_cases hsel : p0.nombre = sel
        · rw [if_pos hsel]
          exact stockNonnegB_update p0
            (add_nonneg hs0 (le_trans zero_le_one hq))
        · rw [if_neg hsel]
          exact hinv p0 hp0
  · intro ventas sel fecha q s info hf hs hlt
    simp only [submitVenta, hf, hs]
    rw [if_pos hlt]

/-- Witness for C1: a one-row table with stock 5 keeps the invariant
through a successful sale of 3. -/
theorem c1_stock_invariant_witness :
    stockInv [⟨"P1", "A", "c", "u", Cell.num 5⟩]
    ∧ (submitVenta [⟨"P1", "A", "c", "u", Cell.num 5⟩] [] "A" 3 "d").error = none
    ∧ stockInv (submitVenta [⟨"P1", "A", "c", "u", Cell.num 5⟩] [] "A" 3 "d").productos :=
  ⟨by decide, by decide,
    (c1_stock_invariant [⟨"P1", "A", "c", "u", Cell.num 5⟩] (by decide)).2.1
      [] "A" "d" 3 (by decide)⟩

/-- C9: the top 5 aggregation groups the log by name and sums the
quantities; it returns as many groups as exist, up to five, every
returned entry is one of the grouped sums, and every group left out has
a summed quantity at most that of every group returned.  In particular,
with six or more distinct names, a name outside the five greatest sums
is excluded no matter how many individual rows it has. -/
theorem c9_top5_greatest (log : List Movimiento) :
    (top5 log).length = min 5 (groupSums log).length
    ∧ (∀ q ∈ top5 log, q ∈ groupSums log)
    ∧ ∀ p ∈ groupSums log, p ∉ top5 log → ∀ q ∈ top5 log, p.2 ≤ q.2 := by
  have hperm := List.perm_insertionSort sumGE (groupSums log)
  have hsorted : List.Pairwise sumGE (List.insertionSort sumGE (groupSums log)) :=
    List.sorted_insertionSort sumGE (groupSums log)
  refine ⟨?_, ?_, ?_⟩
  · rw [top5, List.length_take, hperm.length_eq]
  · intro q hq
    have hq' : q ∈ (List.insertionSort sumGE (groupSums log)).take 5 := hq
    exact hperm.mem_iff.mp (List.mem_of_mem_take hq')
  · intro p hp hnp q hq
    have hq' : q ∈ (List.insertionSort sumGE (groupSums log)).take 5 := hq
    have hpS : p ∈ List.insertionSort sumGE (groupSums log) := hperm.mem_iff.mpr hp
    have hsplit := List.take_append_drop 5 (List.insertionSort sumGE (groupSums log))
    have hpd : p ∈ (List.insertionSort sumGE (groupSums log)).drop 5 := by
      rcases List.mem_append.mp (by rw [hsplit]; exact hpS) with h | h
      · exact absurd h hnp
      · exact h
    have hpw : List.Pairwise sumGE
        ((List.insertionSort sumGE (groupSums log)).take 5
          ++ (List.insertionSort sumGE (groupSums log)).drop 5) := by
      rw [hsplit]; exact hsorted
    exact (List.pairwise_append.mp hpw).2.2 q hq' p hpd

/-- Witness for C9 on a log with six distinct products: product F has
three rows but the smallest sum, and is excluded from the top 5. -/
theorem c9_top5_greatest_witness :
    ("F", (3 : Int)) ∈ groupSums demoVentas
    ∧ ("F", (3 : Int)) ∉ top5 demoVentas
    ∧ (top5 demoVentas).length = 5
    ∧ ∀ q ∈ top5 demoVentas, (3 : Int) ≤ q.2 := by
  refine ⟨by decide, by decide, by decide, ?_⟩
  intro q hq
  exact (c9_top5_greatest demoVentas).2.2 ("F", 3) (by decide) (by decide) q hq

end Inventario
